import Mathlib

/-!
Shallow embedding of the timetable scheduling engine of the
automated_timetable_attendance_system repository.

Conventions used throughout:
* Mongo/Mongoose object ids are modelled as natural numbers.  The source
  normalises populated documents and raw ids through string coercion
  (slot.courseId?._id ? ... : slot.courseId?.toString()); entries here carry
  the normalised id directly.  Optional human-readable names used only for
  message interpolation are carried as Option String.
* "HH:MM" times stay strings, exactly as in the source.  Parsing mirrors
  split(':') / Number; the JavaScript Date-based comparison of
  isTimeConflict is modelled by dateValue, which yields the
  minutes-since-midnight value exactly when new Date("1970-01-01T" ++ s ++
  ":00") is a valid date for a two-digit "HH:MM" string.
* The persisted-entry repository (Timetable.find with the day / id / $ne
  exclusion query) is external I/O; checkConflicts receives the result of
  that query as the explicit existingSlots argument.
-/

/-- Splits a character list at every occurrence of c (String.prototype.split). -/
def splitOnChar (c : Char) : List Char → List (List Char)
  | [] => [[]]
  | x :: xs =>
    if x = c then [] :: splitOnChar c xs
    else
      match splitOnChar c xs with
      | g :: gs => (x :: g) :: gs
      | [] => [[x]]

/-- Decimal digit value of a character, none for non-digits. -/
def digVal (c : Char) : Option Nat :=
  if '0' ≤ c ∧ c ≤ '9' then some (c.toNat - 48) else none

def charsToNatAux : List Char → Nat → Option Nat
  | [], acc => some acc
  | c :: cs, acc =>
    match digVal c with
    | some d => charsToNatAux cs (acc * 10 + d)
    | none => none

/-- Parses a non-empty all-digit character list as a natural number. -/
def charsToNat : List Char → Option Nat
  | [] => none
  | cs => charsToNatAux cs 0

/-- JavaScript string comparison (code-unit lexicographic) : a < b. -/
def strLtChars : List Char → List Char → Bool
  | [], [] => false
  | [], _ :: _ => true
  | _ :: _, [] => false
  | a :: as, b :: bs =>
    if a.toNat < b.toNat then true
    else if b.toNat < a.toNat then false
    else strLtChars as bs

/-- JavaScript a <= b on strings, i.e. not (b < a). -/
def jsStrLe (a b : String) : Bool := !(strLtChars b.data a.data)

/-- Splits "HH:MM" on the character colon; models time.split(':'). -/
def splitColon (s : String) : List (List Char) := splitOnChar ':' s.data

/-- The pair (hours, minutes) obtained from startTime.split(':').map(Number).
On the valid zero-padded inputs the claims exercise this agrees with
JavaScript Number; non-numeric fields (NaN in JavaScript) are mapped to 0. -/
def hmOf (s : String) : Nat × Nat :=
  match splitColon s with
  | [h, m] => ((charsToNat h).getD 0, (charsToNat m).getD 0)
  | _ => (0, 0)

/-- toMinutes from utils/timeSlots.js: h * 60 + m. -/
def toMinutes (s : String) : Nat :=
  (hmOf s).1 * 60 + (hmOf s).2

/-- Two-digit zero padding, toString().padStart(2, '0'). -/
def padTwo (n : Nat) : String :=
  if n < 10 then "0" ++ Nat.repr n else Nat.repr n

/-- toTimeString from utils/timeSlots.js: minutes since midnight to "HH:MM". -/
def toTimeString (totalMinutes : Nat) : String :=
  padTwo (totalMinutes / 60) ++ ":" ++ padTwo (totalMinutes % 60)

/-- calculateEndTime of the genetic scheduler; the POST / and PUT /:id route
handlers and the graph module compute the end time inline with the identical
formula.  Note the absent carry from the minute field into the hour field. -/
def calculateEndTime (startTime : String) (duration : Nat) : String :=
  padTwo ((hmOf startTime).1 + duration / 60) ++ ":" ++ padTwo ((hmOf startTime).2 + duration % 60)

/-- Loop body of generateTimeSlots: for (let t = startMin; t + duration <= endMin; t += step).
Structural fuel stands in for the loop; generateTimeSlots supplies enough fuel
for every positive step (the JavaScript loop does not terminate for step 0). -/
def slotsGo (endMin step duration : Nat) : Nat → Nat → List Nat
  | 0, _ => []
  | fuel + 1, t =>
    if t + duration ≤ endMin then t :: slotsGo endMin step duration fuel (t + step)
    else []

/-- generateTimeSlots from utils/timeSlots.js, default arguments included
(duration defaults to step). -/
def generateTimeSlots (start : String := "09:00") (stop : String := "17:00")
    (step : Nat := 60) (duration : Nat := step) : List String :=
  (slotsGo (toMinutes stop) step duration (toMinutes stop + 1) (toMinutes start)).map toTimeString

/-- Minutes-since-midnight value of new Date("1970-01-01T" ++ s ++ ":00"):
defined exactly for two-digit "HH:MM" with hour below 24 and minute below 60,
none standing for an Invalid Date.  (The ISO corner case "24:00" is outside
every time value the engine constructs on the claims' domains.) -/
def dateValue (s : String) : Option Nat :=
  match splitColon s with
  | [h, m] =>
    if h.length = 2 ∧ m.length = 2 then
      match charsToNat h, charsToNat m with
      | some hh, some mm => if hh < 24 ∧ mm < 60 then some (hh * 60 + mm) else none
      | _, _ => none
    else none
  | _ => none

/-- isTimeConflict from the timetable controller: start1 < end2 && start2 < end1
on Date values; any comparison involving an Invalid Date is false in
JavaScript, hence the false result when any argument fails to parse.
isTimeOverlap of the graph-coloring module is the identical function. -/
def isTimeConflict (startTime1 endTime1 startTime2 endTime2 : String) : Bool :=
  match dateValue startTime1, dateValue endTime1, dateValue startTime2, dateValue endTime2 with
  | some s1, some e1, some s2, some e2 => decide (s1 < e2) && decide (s2 < e1)
  | _, _, _, _ => false

/-- One [start, end] interval of an availability or blackout record; the
source field name end is a Lean keyword, rendered finish here. -/
structure TimeRange where
  start : String
  finish : String
deriving DecidableEq

/-- One per-day record of availability or blackoutPeriods. -/
structure AvailRec where
  day : String
  slots : List TimeRange
deriving DecidableEq

/-- Availability-bearing document data (teacher, classroom or student-group
document): name used for message interpolation, availability and
blackoutPeriods arrays (undefined collapses to the empty list). -/
structure Entity where
  name : Option String := none
  availability : List AvailRec := []
  blackoutPeriods : List AvailRec := []
deriving DecidableEq

/-- isWithinAvailability from the timetable controller. -/
def isWithinAvailability (entity : Option Entity) (day startTime endTime : String) : Bool :=
  match entity with
  | none => true
  | some e =>
    let blackoutHit : Bool :=
      if !e.blackoutPeriods.isEmpty then
        match e.blackoutPeriods.find? (fun b => b.day == day) with
        | some b => b.slots.any (fun sl => isTimeConflict startTime endTime sl.start sl.finish)
        | none => false
      else false
    if blackoutHit then false
    else if !e.availability.isEmpty then
      match e.availability.find? (fun a => a.day == day) with
      | none => false
      | some a => a.slots.any (fun sl => jsStrLe sl.start startTime && jsStrLe endTime sl.finish)
    else true

/-- Modelled from the spec, section 4.2 (within_availability), clause by
clause: unconstrained entities are available; a blackout record for the day
with an overlapping slot makes the result false; declared availability
requires a record for the day with a containing slot; otherwise true.
Compared against the source isWithinAvailability for claim C5. -/
def withinAvailabilitySpec (entity : Option Entity) (day startTime endTime : String) : Bool :=
  match entity with
  | none => true
  | some e =>
    if e.blackoutPeriods.isEmpty ∧ e.availability.isEmpty then true
    else if (match e.blackoutPeriods.find? (fun b => b.day == day) with
             | some b => b.slots.any (fun sl => isTimeConflict startTime endTime sl.start sl.finish)
             | none => false) then false
    else if !e.availability.isEmpty then
      match e.availability.find? (fun a => a.day == day) with
      | none => false
      | some a => a.slots.any (fun sl => jsStrLe sl.start startTime && jsStrLe endTime sl.finish)
    else true

/-- A timetable entry: persisted document, pending in-memory entry or
generator output.  Name fields are the resolved references that populate
attaches; raw-id entries leave them none. -/
structure Entry where
  courseId : Nat
  studentGroupId : Nat
  classroomId : Nat
  teacherId : Nat
  courseName : Option String := none
  studentGroupName : Option String := none
  classroomName : Option String := none
  teacherName : Option String := none
  day : String
  startTime : String
  endTime : String
  duration : Nat := 60
  weekNumber : Nat := 1
  semester : Nat := 1
  academicYear : String := ""
deriving DecidableEq

/-- Default constraint caps (environment defaults 4 / 5 / 6). -/
def maxTeacherDailyLectures : Nat := 4

def maxGroupDailyLectures : Nat := 5

def maxClassroomDailyLectures : Nat := 6

/-- The id triple destructured from the ids argument of checkCountConstraints. -/
structure CountIds where
  teacherId : Option Nat := none
  studentGroupId : Option Nat := none
  classroomId : Option Nat := none
deriving DecidableEq

/-- Id projections of one slot as read by checkCountConstraints
(s.teacherId?.toString() and friends; a missing field compares unequal). -/
structure SlotIds where
  courseId : Option Nat := none
  studentGroupId : Option Nat := none
  classroomId : Option Nat := none
  teacherId : Option Nat := none
deriving DecidableEq

/-- The candidate slot object appended by checkConflicts before the count
check: the bare id quadruple of the placement under test. -/
def candIds (co g c t : Nat) : SlotIds :=
  { courseId := some co, studentGroupId := some g, classroomId := some c,
    teacherId := some t }

def Entry.toIds (e : Entry) : SlotIds :=
  { courseId := some e.courseId, studentGroupId := some e.studentGroupId,
    classroomId := some e.classroomId, teacherId := some e.teacherId }

/-- checkCountConstraints from utils/constraints.js: per-entity daily counts
over the aggregated slot list, conflict string when a count exceeds its cap. -/
def checkCountConstraints (allSlots : List SlotIds) (ids : CountIds) : List String :=
  (match ids.teacherId with
   | some t =>
     if maxTeacherDailyLectures < (allSlots.filter (fun s => s.teacherId == some t)).length then
       ["Teacher exceeds maximum daily lectures of " ++ Nat.repr maxTeacherDailyLectures]
     else []
   | none => []) ++
  (match ids.studentGroupId with
   | some g =>
     if maxGroupDailyLectures < (allSlots.filter (fun s => s.studentGroupId == some g)).length then
       ["Student group exceeds maximum daily lectures of " ++ Nat.repr maxGroupDailyLectures]
     else []
   | none => []) ++
  (match ids.classroomId with
   | some c =>
     if maxClassroomDailyLectures < (allSlots.filter (fun s => s.classroomId == some c)).length then
       ["Classroom exceeds maximum daily lectures of " ++ Nat.repr maxClassroomDailyLectures]
     else []
   | none => [])

/-- Interpolation of an optional resolved name: name ? " name" : "". -/
def nameSuffix : Option String → String
  | some n => " " ++ n
  | none => ""

/-- The four per-slot duplicate checks of the checkConflicts loop body.
Messages are pushed only when the slot shares the day and the intervals
overlap, one message per matching identifier. -/
def overlapMsgs (courseId studentGroupId classroomId teacherId : Nat)
    (day startTime endTime : String) (slot : Entry) : List String :=
  if slot.day == day && isTimeConflict startTime endTime slot.startTime slot.endTime then
    (if slot.courseId == courseId then
       ["Course" ++ nameSuffix slot.courseName ++ " already scheduled at this time"] else []) ++
    (if slot.studentGroupId == studentGroupId then
       ["Student group" ++ nameSuffix slot.studentGroupName ++ " already has a class at this time"] else []) ++
    (if slot.classroomId == classroomId then
       ["Classroom" ++ nameSuffix slot.classroomName ++ " is already booked at this time"] else []) ++
    (if slot.teacherId == teacherId then
       ["Teacher" ++ nameSuffix slot.teacherName ++ " already has a class at this time"] else [])
  else []

/-- The entities argument of checkConflicts: optional resolved teacher,
classroom and student-group documents for the availability checks. -/
structure EntityRefs where
  teacher : Option Entity := none
  classroom : Option Entity := none
  studentGroup : Option Entity := none
deriving DecidableEq

/-- checkConflicts from the timetable controller.  existingSlots is the result
of the persisted-entry repository query (day + identifier match, exclusion id
honoured by the query itself); the remaining arguments mirror the source. -/
def checkConflicts (courseId studentGroupId classroomId teacherId : Nat)
    (day startTime endTime : String)
    (existingSlots : List Entry) (pendingSchedule : List Entry)
    (entities : EntityRefs) : List String :=
  let relevantPending := pendingSchedule.filter (fun slot => slot.day == day)
  let allSlots := existingSlots ++ relevantPending
  let allSlotsWithNew := allSlots.map Entry.toIds ++
    [{ courseId := some courseId, studentGroupId := some studentGroupId,
       classroomId := some classroomId, teacherId := some teacherId }]
  let limitConflicts := checkCountConstraints allSlotsWithNew
    { teacherId := some teacherId, studentGroupId := some studentGroupId,
      classroomId := some classroomId }
  let slotConflicts := allSlots.flatMap
    (overlapMsgs courseId studentGroupId classroomId teacherId day startTime endTime)
  let availabilityConflicts :=
    (match entities.teacher with
     | some t =>
       if !isWithinAvailability (some t) day startTime endTime then
         ["Teacher" ++ nameSuffix t.name ++ " is not available at this time"] else []
     | none => []) ++
    (match entities.classroom with
     | some c =>
       if !isWithinAvailability (some c) day startTime endTime then
         ["Classroom" ++ nameSuffix c.name ++ " is not available at this time"] else []
     | none => []) ++
    (match entities.studentGroup with
     | some g =>
       if !isWithinAvailability (some g) day startTime endTime then
         ["Student group" ++ nameSuffix g.name ++ " is not available at this time"] else []
     | none => [])
  limitConflicts ++ slotConflicts ++ availabilityConflicts

/-- A student-group document: id, size, and its availability data. -/
structure StudentGroup where
  id : Nat
  size : Nat
  entity : Entity := {}
deriving DecidableEq

/-- A classroom document: id, capacity, and its availability data. -/
structure Classroom where
  id : Nat
  capacity : Nat
  entity : Entity := {}
deriving DecidableEq

/-- A course with its populated teacher document (teacherId is the id of the
teacher, teacher its availability data) and populated student groups. -/
structure Course where
  id : Nat
  teacherId : Nat
  teacher : Entity := {}
  studentGroups : List StudentGroup := []
  duration : Nat := 60
  frequency : Nat := 1
deriving DecidableEq

/-- Environment defaults TIMETABLE_START / TIMETABLE_END / TIMETABLE_STEP. -/
def SLOT_START : String := "09:00"

def SLOT_END : String := "17:00"

def SLOT_STEP : Nat := 60

/-- The fixed day sweep of the greedy generator. -/
def weekdaysList : List String :=
  ["monday", "tuesday", "wednesday", "thursday", "friday", "saturday"]

/-- One placement attempt of the greedy GET /generate handler: sweep days,
then generated start times, then capacity-qualified classrooms, returning the
first entry whose conflict list is empty.  The persisted repository is empty
(the round-trip claim's hypothesis), so every kernel query returns []. -/
def tryPlace (course : Course) (group : StudentGroup) (classrooms : List Classroom)
    (pending : List Entry) (semester : Nat) (academicYear : String) : Option Entry :=
  weekdaysList.findSome? fun day =>
    (generateTimeSlots SLOT_START SLOT_END SLOT_STEP course.duration).findSome? fun startTime =>
      let endTime := calculateEndTime startTime course.duration
      classrooms.findSome? fun classroom =>
        if group.size ≤ classroom.capacity then
          if checkConflicts course.id group.id classroom.id course.teacherId
              day startTime endTime [] pending
              { teacher := some course.teacher, classroom := some classroom.entity,
                studentGroup := some group.entity } = [] then
            some { courseId := course.id, studentGroupId := group.id,
                   classroomId := classroom.id, teacherId := course.teacherId,
                   day := day, startTime := startTime, endTime := endTime,
                   duration := course.duration, weekNumber := 1,
                   semester := semester, academicYear := academicYear }
          else none
        else none

/-- The greedy generator of GET /timetable/generate: for each course, group
and frequency index, append the first conflict-free placement to the pending
schedule (unscheduled sessions are only recorded for debug output). -/
def generateSchedule (courses : List Course) (classrooms : List Classroom)
    (semester : Nat) (academicYear : String) : List Entry :=
  courses.foldl
    (fun pending course =>
      course.studentGroups.foldl
        (fun pending group =>
          (List.range course.frequency).foldl
            (fun pending _ =>
              match tryPlace course group classrooms pending semester academicYear with
              | some e => pending ++ [e]
              | none => pending)
            pending)
        pending)
    []

/-- Stable insertion step: x is placed before the first element y with
before x y, after every earlier element it does not strictly precede. -/
def insertBy (before : α → α → Bool) (x : α) : List α → List α
  | [] => [x]
  | y :: ys => if before x y then x :: y :: ys else y :: insertBy before x ys

/-- Stable sort: the model of the V8 stable Array.prototype.sort for the
comparators the source uses (with before a b meaning a sorts before b,
ties keeping input order). -/
def sortBy (before : α → α → Bool) : List α → List α
  | [] => []
  | x :: xs => insertBy before x (sortBy before xs)

/-- A node of the course-conflict graph: one (course, group, frequency) triple.
The courseName / groupName / teacherName fields of the source are used only in
console logging and are omitted. -/
structure GraphNode where
  id : Nat
  courseId : Nat
  studentGroupId : Nat
  teacherId : Nat
  duration : Nat
  requiredCapacity : Nat
deriving DecidableEq

/-- An undirected conflict edge, stored as the ordered index pair the nested
construction loops produce (from < to; from is a Lean keyword). -/
structure GraphEdge where
  frm : Nat
  toN : Nat
deriving DecidableEq

/-- hasConflict of TimetableGraph: same teacher, same student group or same
course. -/
def hasConflict (n1 n2 : GraphNode) : Bool :=
  n1.teacherId == n2.teacherId || n1.studentGroupId == n2.studentGroupId ||
    n1.courseId == n2.courseId

/-- initializeGraph node construction: one node per (course, studentGroup,
frequency index) with a running id equal to its index; course.frequency || 1
and course.duration || 60 mirror the JavaScript falsy-zero defaults. -/
def initializeNodes (courses : List Course) : List GraphNode :=
  ((courses.flatMap fun c =>
      c.studentGroups.flatMap fun g =>
        (List.range (if c.frequency = 0 then 1 else c.frequency)).map fun _ => (c, g))).enum.map
    fun p =>
      { id := p.1, courseId := p.2.1.id, studentGroupId := p.2.2.id,
        teacherId := p.2.1.teacherId,
        duration := if p.2.1.duration = 0 then 60 else p.2.1.duration,
        requiredCapacity := p.2.2.size }

/-- buildConflictGraph: an edge for every index pair i < j whose nodes
conflict. -/
def buildConflictGraph (nodes : List GraphNode) : List GraphEdge :=
  nodes.enum.flatMap fun p =>
    nodes.enum.filterMap fun q =>
      if p.1 < q.1 && hasConflict p.2 q.2 then some { frm := p.1, toN := q.1 } else none

/-- getNodeDegree: number of incident edges. -/
def getNodeDegree (edges : List GraphEdge) (i : Nat) : Nat :=
  (edges.filter fun e => e.frm == i || e.toN == i).length

/-- A color: a (day, startTime) pair with a running id; its endTime is
computed with the fixed 60-minute duration of the color list construction. -/
structure Color where
  id : Nat
  day : String
  startTime : String
  endTime : String
deriving DecidableEq

/-- The flat day-major color list both coloring algorithms build, with
endTime := calculateEndTime(timeSlot, 60). -/
def wpColors (availableTimeSlots : List String) : List Color :=
  ((weekdaysList.flatMap fun day => availableTimeSlots.map fun s => (day, s))).enum.map
    fun p => { id := p.1, day := p.2.1, startTime := p.2.2,
               endTime := calculateEndTime p.2.2 60 }

/-- isClassroomAvailable of TimetableGraph; behaviourally the availability
test of isWithinAvailability applied to the classroom document (the source
duplicates the logic with isTimeOverlap, the same function as
isTimeConflict). -/
def isClassroomAvailable (classroom : Classroom) (day startTime endTime : String) : Bool :=
  let blackoutHit : Bool :=
    match classroom.entity.blackoutPeriods.find? (fun b => b.day == day) with
    | some b => b.slots.any (fun sl => isTimeConflict startTime endTime sl.start sl.finish)
    | none => false
  let availOk : Bool :=
    if !classroom.entity.availability.isEmpty then
      match classroom.entity.availability.find? (fun a => a.day == day) with
      | none => false
      | some a => a.slots.any (fun sl => jsStrLe sl.start startTime && jsStrLe endTime sl.finish)
    else true
  !blackoutHit && availOk

/-- getAvailableColors: colors not used by any colored neighbor for which at
least one capacity-qualified, available classroom exists. -/
def getAvailableColors (edges : List GraphEdge) (classrooms : List Classroom)
    (node : GraphNode) (nodeIndex : Nat) (coloring : Nat → Option Nat)
    (colors : List Color) : List Color :=
  let usedColors := edges.filterMap fun e =>
    if e.frm == nodeIndex then coloring e.toN
    else if e.toN == nodeIndex then coloring e.frm
    else none
  colors.filter fun color =>
    !(usedColors.contains color.id) &&
    !(classrooms.filter fun c =>
        node.requiredCapacity ≤ c.capacity &&
        isClassroomAvailable c color.day color.startTime color.endTime).isEmpty

/-- A time-slot assignment record for one node (classroomId is filled in by
the second pass; the classroomName decoration is omitted as log-only). -/
structure Assignment where
  nodeId : Nat
  courseId : Nat
  studentGroupId : Nat
  teacherId : Nat
  day : String
  startTime : String
  endTime : String
  duration : Nat
  classroomId : Option Nat := none
  color : Nat
deriving DecidableEq

/-- A node decorated with its index and degree for the Welsh-Powell sort. -/
structure DegreeNode where
  node : GraphNode
  index : Nat
  degree : Nat
deriving DecidableEq

/-- The mutable coloring and assignment maps of welshPowellColoring:
coloring is the -1-initialised color array (none standing for -1), assigns
the timeSlotAssignments object keyed by node index. -/
structure WPState where
  coloring : Nat → Option Nat
  assigns : Nat → Option Assignment

/-- The assignment stored for a node when a color is selected; the node's own
duration is used for the entry's endTime even though color feasibility was
computed with 60-minute endpoints. -/
def mkAssignment (x : DegreeNode) (c : Color) : Assignment :=
  { nodeId := x.node.id, courseId := x.node.courseId,
    studentGroupId := x.node.studentGroupId, teacherId := x.node.teacherId,
    day := c.day, startTime := c.startTime,
    endTime := calculateEndTime c.startTime x.node.duration,
    duration := x.node.duration, classroomId := none, color := c.id }

/-- One iteration of the Welsh-Powell coloring loop: take the first available
color; a node with no available color stays uncolored. -/
def wpStep (edges : List GraphEdge) (classrooms : List Classroom) (colors : List Color)
    (st : WPState) (x : DegreeNode) : WPState :=
  match getAvailableColors edges classrooms x.node x.index st.coloring colors with
  | [] => st
  | c :: _ =>
    { coloring := fun i => if i = x.index then some c.id else st.coloring i,
      assigns := fun i => if i = x.index then some (mkAssignment x c) else st.assigns i }

/-- The classroom-usage key of assignClassrooms. -/
def usageKey (classroomId : Nat) (day startTime : String) : String :=
  Nat.repr classroomId ++ "_" ++ day ++ "_" ++ startTime

/-- Graph-coloring output (the metadata block of the source carries only
reporting counts and is omitted). -/
structure GCResult where
  schedule : List Assignment
  totalSlots : Nat
  unscheduled : Nat
deriving DecidableEq

/-- One Object.entries iteration of assignClassrooms: the first
capacity-qualified available classroom whose (classroom, day, startTime)
usage key is unused is assigned; otherwise the node is left unscheduled. -/
def assignStep (classrooms : List Classroom) (nodes : List GraphNode)
    (assigns : Nat → Option Assignment)
    (st : List String × List Assignment) (idx : Nat) : List String × List Assignment :=
  match assigns idx with
  | none => st
  | some a =>
    match nodes.get? idx with
    | none => st
    | some node =>
      let suitable := classrooms.filter fun c =>
        node.requiredCapacity ≤ c.capacity &&
        isClassroomAvailable c a.day a.startTime a.endTime
      match suitable.find? (fun c => !(st.1.contains (usageKey c.id a.day a.startTime))) with
      | some c =>
        (st.1 ++ [usageKey c.id a.day a.startTime],
         st.2 ++ [{ a with classroomId := some c.id }])
      | none => st

/-- assignClassrooms of TimetableGraph.  Object.entries over the
integer-keyed timeSlotAssignments iterates in ascending numeric key order,
modelled by the index sweep over List.range. -/
def assignClassrooms (classrooms : List Classroom) (nodes : List GraphNode)
    (assigns : Nat → Option Assignment) : GCResult :=
  let st := (List.range nodes.length).foldl (assignStep classrooms nodes assigns) ([], [])
  { schedule := st.2, totalSlots := st.2.length,
    unscheduled := nodes.length - st.2.length }

/-- welshPowellColoring: sort nodes by degree descending (stable), greedily
color each with its first available color, then assign classrooms. -/
def welshPowellColoring (courses : List Course) (classrooms : List Classroom)
    (availableTimeSlots : List String) : GCResult :=
  let nodes := initializeNodes courses
  let edges := buildConflictGraph nodes
  let nodesByDegree := sortBy (fun a b => b.degree ≤ a.degree)
    (nodes.enum.map fun p =>
      { node := p.2, index := p.1, degree := getNodeDegree edges p.1 })
  let colors := wpColors availableTimeSlots
  let finalSt := nodesByDegree.foldl (wpStep edges classrooms colors)
    { coloring := fun _ => none, assigns := fun _ => none }
  assignClassrooms classrooms nodes finalSt.assigns

/-- getRandomClassroom of the genetic scheduler: a random capacity-qualified
classroom, falling back to a random arbitrary classroom when none qualify.
The Math.random draw is abstracted into the index argument r (taken modulo
the relevant length); an empty classroom list makes the source throw, here
none. -/
def getRandomClassroom (classrooms : List Classroom) (requiredCapacity : Nat)
    (r : Nat) : Option Classroom :=
  let suitableClassrooms := classrooms.filter fun c => requiredCapacity ≤ c.capacity
  if 0 < suitableClassrooms.length then
    suitableClassrooms.get? (r % suitableClassrooms.length)
  else
    classrooms.get? (r % classrooms.length)

/-- A gene of the genetic optimizer. -/
structure Gene where
  courseId : Nat
  studentGroupId : Nat
  teacherId : Nat
  classroomId : Nat
  day : String
  startTime : String
  endTime : String
  duration : Nat
deriving DecidableEq

/-- The day and time-slot pools of the genetic configuration, with the
source's constructor defaults. -/
structure GAConfig where
  timeSlots : List String :=
    ["09:00", "10:00", "11:00", "12:00", "13:00", "14:00", "15:00", "16:00"]
  days : List String := weekdaysList
deriving DecidableEq

/-- The (course, group) list of required sessions the chromosome is built
over, one element per frequency index (course.frequency || 1). -/
def genePositions (courses : List Course) : List (Course × StudentGroup) :=
  courses.flatMap fun c =>
    c.studentGroups.flatMap fun g =>
      (List.range (if c.frequency = 0 then 1 else c.frequency)).map fun _ => (c, g)

/-- createRandomChromosome of the genetic scheduler.  The sequential
Math.random draws are abstracted into an oracle giving, for the i-th gene,
the raw draws for classroom, day and time slot (every reachable random
outcome corresponds to some oracle); an id 0 stands for the TypeError the
source throws when the classroom list is empty. -/
def createRandomChromosome (courses : List Course) (classrooms : List Classroom)
    (cfg : GAConfig) (choices : Nat → Nat × Nat × Nat) : List Gene :=
  (genePositions courses).enum.map fun p =>
    let rs := choices p.1
    let dur := if p.2.1.duration = 0 then 60 else p.2.1.duration
    let startTime := (cfg.timeSlots.get? (rs.2.2 % cfg.timeSlots.length)).getD ""
    { courseId := p.2.1.id, studentGroupId := p.2.2.id, teacherId := p.2.1.teacherId,
      classroomId := ((getRandomClassroom classrooms p.2.2.size rs.1).map Classroom.id).getD 0,
      day := (cfg.days.get? (rs.2.1 % cfg.days.length)).getD "",
      startTime := startTime, endTime := calculateEndTime startTime dur,
      duration := dur }

/-- A persisted timetable document as the PUT /timetable/:id handler sees it. -/
structure StoredEntry where
  courseId : Nat
  studentGroupId : Nat
  classroomId : Nat
  teacherId : Nat
  day : String
  startTime : String
  endTime : String
  duration : Nat
  notes : Option String := none
  status : Option String := none
deriving DecidableEq

/-- The whitelisted update fields of PUT /timetable/:id (absent field =
key not supplied in the request body). -/
structure UpdateBody where
  day : Option String := none
  startTime : Option String := none
  duration : Option Nat := none
  classroomId : Option Nat := none
  notes : Option String := none
  status : Option String := none
deriving DecidableEq

/-- PUT /timetable/:id on an existing entry: endTime is recomputed only when
the update carries both startTime and duration; the kernel is re-run (with
the entry itself excluded from the persisted query, whose result is the
persisted argument) only when day, startTime or classroomId changes; on a
non-empty conflict list the handler answers 409 and stores nothing,
otherwise findByIdAndUpdate applies exactly the supplied fields. -/
def putTimetable (existing : StoredEntry) (u : UpdateBody)
    (persisted : List Entry) (entities : EntityRefs) :
    Except (List String) StoredEntry :=
  let endTimeUpd : Option String :=
    match u.startTime, u.duration with
    | some st, some d => some (calculateEndTime st d)
    | _, _ => none
  let conflicts :=
    if u.day.isSome || u.startTime.isSome || u.classroomId.isSome then
      checkConflicts existing.courseId existing.studentGroupId
        (u.classroomId.getD existing.classroomId) existing.teacherId
        (u.day.getD existing.day) (u.startTime.getD existing.startTime)
        (endTimeUpd.getD existing.endTime) persisted [] entities
    else []
  if conflicts.isEmpty then
    Except.ok
      { existing with
        day := u.day.getD existing.day,
        startTime := u.startTime.getD existing.startTime,
        duration := u.duration.getD existing.duration,
        classroomId := u.classroomId.getD existing.classroomId,
        notes := match u.notes with | some n => some n | none => existing.notes,
        status := match u.status with | some s => some s | none => existing.status,
        endTime := endTimeUpd.getD existing.endTime }
  else
    Except.error conflicts

/-- The query-string filters of GET /timetable. -/
structure TTQuery where
  studentGroupId : Option Nat := none
  teacherId : Option Nat := none
  classroomId : Option Nat := none
  day : Option String := none
  semester : Option Nat := none
  academicYear : Option String := none
deriving DecidableEq

/-- The filter fields set before the role branch of GET /timetable. -/
def baseFilter (q : TTQuery) (e : Entry) : Bool :=
  (match q.teacherId with | some t => e.teacherId == t | none => true) &&
  (match q.classroomId with | some c => e.classroomId == c | none => true) &&
  (match q.day with | some d => e.day == d | none => true) &&
  (match q.semester with | some s => e.semester == s | none => true) &&
  (match q.academicYear with | some y => e.academicYear == y | none => true)

/-- The Mongo sort({day: 1, startTime: 1}) of GET /timetable, modelled as a
stable sort on the (day, startTime) string key. -/
def sortTimetable (l : List Entry) : List Entry :=
  sortBy (fun a b =>
    strLtChars a.day.data b.day.data || (a.day == b.day && jsStrLe a.startTime b.startTime)) l

/-- The student branch of GET /timetable.  memberGroups is the id list of
the student groups whose students array contains the requesting user (the
StudentGroup.find result); db is the persisted timetable collection; the
first component of the result is the HTTP status (every branch here answers
200 with a timetable array, never 403). -/
def studentTimetable (memberGroups : List Nat) (q : TTQuery) (db : List Entry) :
    Nat × List Entry :=
  if memberGroups.isEmpty then (200, [])
  else
    match q.studentGroupId with
    | some g =>
      if memberGroups.contains g then
        (200, sortTimetable (db.filter fun e => baseFilter q e && e.studentGroupId == g))
      else (200, [])
    | none =>
      (200, sortTimetable (db.filter fun e => baseFilter q e && memberGroups.contains e.studentGroupId))

/-- Soundness of one greedy schedule: every entry records a course, group and
classroom drawn from the inputs, satisfies the capacity filter, derives its
end time from its start time, and replaying the kernel on it with the earlier
entries as the pending list (and the same entities the generator passed)
yields the empty conflict list. -/
def ScheduleSound (courses : List Course) (classrooms : List Classroom)
    (semester : Nat) (academicYear : String) (sched : List Entry) : Prop :=
  ∀ k e, sched.get? k = some e →
    ∃ course group room,
      course ∈ courses ∧ group ∈ course.studentGroups ∧ room ∈ classrooms ∧
      e.courseId = course.id ∧ e.studentGroupId = group.id ∧
      e.classroomId = room.id ∧ e.teacherId = course.teacherId ∧
      e.endTime = calculateEndTime e.startTime course.duration ∧
      group.size ≤ room.capacity ∧
      checkConflicts course.id group.id room.id course.teacherId
        e.day e.startTime e.endTime [] (sched.take k)
        { teacher := some course.teacher, classroom := some room.entity,
          studentGroup := some group.entity } = []

/-- A course owing two 120-minute sessions to one group: the graph-coloring
counterexample input. -/
def c2Course : Course :=
  { id := 1, teacherId := 7, studentGroups := [{ id := 3, size := 30 }],
    duration := 120, frequency := 2 }

def c2Room : Classroom := { id := 5, capacity := 40 }

/-- A course whose only group (50 students) fits in no classroom of the
genetic counterexample input. -/
def c3Course : Course :=
  { id := 1, teacherId := 7, studentGroups := [{ id := 3, size := 50 }] }

def c3Room : Classroom := { id := 9, capacity := 10 }

def w3Room : Classroom := { id := 9, capacity := 40 }

/-- Four same-day pending entries of teacher 1 (the spec's concrete teacher
daily-cap scenario, ids renamed to numbers). -/
def c4pending : List Entry :=
  [ { courseId := 11, studentGroupId := 21, classroomId := 31, teacherId := 1,
      day := "monday", startTime := "08:00", endTime := "09:00" },
    { courseId := 12, studentGroupId := 22, classroomId := 32, teacherId := 1,
      day := "monday", startTime := "09:00", endTime := "10:00" },
    { courseId := 13, studentGroupId := 23, classroomId := 33, teacherId := 1,
      day := "monday", startTime := "10:00", endTime := "11:00" },
    { courseId := 14, studentGroupId := 24, classroomId := 34, teacherId := 1,
      day := "monday", startTime := "11:00", endTime := "12:00" } ]

def w1Course : Course :=
  { id := 1, teacherId := 7, studentGroups := [{ id := 3, size := 30 }] }

def w1Room : Classroom := { id := 5, capacity := 40 }

/-- The single entry the greedy generator produces from w1Course / w1Room. -/
def w1Entry : Entry :=
  { courseId := 1, studentGroupId := 3, classroomId := 5, teacherId := 7,
    day := "monday", startTime := "09:00", endTime := "10:00", duration := 60,
    weekNumber := 1, semester := 1, academicYear := "2024-25" }

def w2Courses : List Course :=
  [ { id := 1, teacherId := 7, studentGroups := [{ id := 3, size := 30 }] },
    { id := 2, teacherId := 8, studentGroups := [{ id := 4, size := 30 }] } ]

def w2Rooms : List Classroom :=
  [ { id := 5, capacity := 40 }, { id := 6, capacity := 40 } ]

def w2e1 : Entry :=
  { courseId := 1, studentGroupId := 3, classroomId := 5, teacherId := 7,
    day := "monday", startTime := "09:00", endTime := "10:00", duration := 60,
    weekNumber := 1, semester := 1, academicYear := "2024-25" }

def w2e2 : Entry :=
  { courseId := 2, studentGroupId := 4, classroomId := 6, teacherId := 8,
    day := "monday", startTime := "09:00", endTime := "10:00", duration := 60,
    weekNumber := 1, semester := 1, academicYear := "2024-25" }

/-- A stored entry consistent at creation time (end 10:00 = 09:00 + 60). -/
def c9entry : StoredEntry :=
  { courseId := 1, studentGroupId := 3, classroomId := 5, teacherId := 7,
    day := "monday", startTime := "09:00", endTime := "10:00", duration := 60 }

/-- An update touching only startTime. -/
def c9update : UpdateBody := { startTime := some "11:00" }

/-- The document stored by PUT for c9entry / c9update: startTime moved,
endTime left at its previous value. -/
def c9updated : StoredEntry :=
  { courseId := 1, studentGroupId := 3, classroomId := 5, teacherId := 7,
    day := "monday", startTime := "11:00", endTime := "10:00", duration := 60 }

def w10query : TTQuery := { studentGroupId := some 2 }

def w10db : List Entry :=
  [ { courseId := 1, studentGroupId := 1, classroomId := 5, teacherId := 7,
      day := "monday", startTime := "09:00", endTime := "10:00" } ]

theorem foldlInv {α β : Type _} (P : β → Prop) (f : β → α → β) :
    ∀ (l : List α) (b : β), P b → (∀ st a, a ∈ l → P st → P (f st a)) →
      P (l.foldl f b) := by
  intro l
  induction l with
  | nil => intro b hb _; simpa using hb
  | cons x xs ih =>
    intro b hb hf
    simp only [List.foldl_cons]
    exact ih (f b x) (hf b x (by simp) hb) fun st a ha => hf st a (by simp [ha])

theorem mem_insertBy {α : Type _} (before : α → α → Bool) (x a : α) :
    ∀ l : List α, a ∈ insertBy before x l ↔ a = x ∨ a ∈ l := by
  intro l
  induction l with
  | nil => simp [insertBy]
  | cons y ys ih =>
    simp only [insertBy]
    split
    · simp
    · simp [ih]; tauto

theorem mem_sortBy {α : Type _} (before : α → α → Bool) (a : α) :
    ∀ l : List α, a ∈ sortBy before l ↔ a ∈ l := by
  intro l
  induction l with
  | nil => simp [sortBy]
  | cons x xs ih => simp [sortBy, mem_insertBy, ih]

/-- C5: the source isWithinAvailability implements the spec's
within_availability decision procedure clause for clause: absent or
unconstrained entities pass; a blackout slot overlapping the interval fails;
declared availability requires a record for the requested day one of whose
slots contains the interval, and a declared availability with no record for
the day makes the entity unavailable. -/
theorem isWithinAvailability_matches_spec :
    ∀ (entity : Option Entity) (day startTime endTime : String),
      isWithinAvailability entity day startTime endTime =
        withinAvailabilitySpec entity day startTime endTime := by
  intro entity day startTime endTime
  cases entity with
  | none => rfl
  | some e =>
    simp only [isWithinAvailability, withinAvailabilitySpec]
    by_cases hb : e.blackoutPeriods.isEmpty
    · have hbl : e.blackoutPeriods = [] := List.isEmpty_iff.mp hb
      by_cases ha : e.availability.isEmpty
      · have hal : e.availability = [] := List.isEmpty_iff.mp ha
        simp [hbl, hal, List.find?]
      · simp [hbl, hb, ha, List.find?]
    · by_cases ha : e.availability.isEmpty
      · simp [hb, ha]
      · simp [hb, ha]

/-- C6: evaluation of end_of at the claim's inputs.  The first conjunct is
the spec's concrete example, which the code meets.  The remaining conjuncts
evaluate the failing input of the claim: for start 09:30 and duration 90 the
code produces "10:60" because the minute field (30 + 90 % 60) is never
carried into the hour field, while the zero-padded encoding of start plus 90
minutes (computed with the repository's own toTimeString / toMinutes pair)
is "11:00". -/
theorem calculateEndTime_minute_overflow :
    calculateEndTime "09:00" 90 = "10:30" ∧
    calculateEndTime "09:30" 90 = "10:60" ∧
    toTimeString (toMinutes "09:30" + 90) = "11:00" ∧
    calculateEndTime "09:30" 90 ≠ toTimeString (toMinutes "09:30" + 90) := by
  decide

theorem slotsGo_get? (endMin step duration : Nat) (hstep : 0 < step) :
    ∀ (fuel t k : Nat), endMin < t + fuel →
      (slotsGo endMin step duration fuel t).get? k =
        if t + k * step + duration ≤ endMin then some (t + k * step) else none := by
  intro fuel
  induction fuel with
  | zero =>
    intro t k h
    have hout : ¬ t + k * step + duration ≤ endMin := by
      generalize k * step = m; omega
    simp [slotsGo, hout]
  | succ fuel ih =>
    intro t k h
    simp only [slotsGo]
    by_cases hc : t + duration ≤ endMin
    · rw [if_pos hc]
      cases k with
      | zero => simpa using hc
      | succ k =>
        have harith : t + step + k * step = t + (k + 1) * step := by ring
        simpa [harith] using ih (t + step) k (by omega)
    · rw [if_neg hc]
      have hout : ¬ t + k * step + duration ≤ endMin := by
        generalize k * step = m; omega
      simp [hout]

/-- C7: generate_slots returns exactly the ordered start times t = start + k
times step (in minutes) with t + duration at most end: the k-th output
element exists precisely when that bound holds and is its "HH:MM" encoding.
The concrete conjuncts are the spec's two examples, and the last conjunct
evaluates the declared default arguments (start 09:00, end 17:00, step 60,
duration = step). -/
theorem generateTimeSlots_spec :
    (∀ (start stop : String) (step duration k : Nat), 0 < step →
       (generateTimeSlots start stop step duration).get? k =
         if toMinutes start + k * step + duration ≤ toMinutes stop then
           some (toTimeString (toMinutes start + k * step))
         else none) ∧
    generateTimeSlots "09:00" "10:30" 30 30 = ["09:00", "09:30", "10:00"] ∧
    generateTimeSlots "09:00" "12:00" 30 90 = ["09:00", "09:30", "10:00", "10:30"] ∧
    (generateTimeSlots : List String) =
      ["09:00", "10:00", "11:00", "12:00", "13:00", "14:00", "15:00", "16:00"] := by
  refine ⟨?_, by decide, by decide, by decide⟩
  intro start stop step duration k hstep
  unfold generateTimeSlots
  rw [List.get?_map, slotsGo_get? _ _ _ hstep _ _ _ (by omega)]
  split <;> simp

/-- C7 witness: the general characterization applied at the default
configuration and index 2. -/
theorem generateTimeSlots_spec_witness :
    (generateTimeSlots "09:00" "17:00" 60 60).get? 2 =
      if toMinutes "09:00" + 2 * 60 + 60 ≤ toMinutes "17:00" then
        some (toTimeString (toMinutes "09:00" + 2 * 60))
      else none :=
  generateTimeSlots_spec.1 "09:00" "17:00" 60 60 2 (by decide)

/-- C8: the overlap test is half-open on the right.  Whenever all four
arguments parse as valid times (dateValue models the Date constructor), the
result is true exactly when a_start < b_end and b_start < a_end; the
touching intervals 09:00-10:00 and 10:00-11:00 are not a conflict. -/
theorem isTimeConflict_halfopen :
    (∀ (s1 e1 s2 e2 : String) (a b c d : Nat),
       dateValue s1 = some a → dateValue e1 = some b →
       dateValue s2 = some c → dateValue e2 = some d →
       (isTimeConflict s1 e1 s2 e2 = true ↔ (a < d ∧ c < b))) ∧
    isTimeConflict "09:00" "10:00" "10:00" "11:00" = false := by
  refine ⟨?_, by decide⟩
  intro s1 e1 s2 e2 a b c d h1 h2 h3 h4
  simp [isTimeConflict, h1, h2, h3, h4]

/-- C8 witness: the characterization applied to two genuinely overlapping
concrete intervals. -/
theorem isTimeConflict_halfopen_witness :
    isTimeConflict "09:00" "10:30" "10:00" "11:00" = true ↔ (540 < 660 ∧ 600 < 630) :=
  isTimeConflict_halfopen.1 "09:00" "10:30" "10:00" "11:00" 540 630 600 660
    (by decide) (by decide) (by decide) (by decide)

theorem mem_ite_singleton {p : Prop} [Decidable p] {a b : String} :
    a ∈ (if p then [b] else ([] : List String)) ↔ p ∧ a = b := by
  split <;> simp_all

/-- C4: cap conflicts count the candidate itself.  For a slate of same-day
slot ids extended by the candidate's ids, the matching count for each entity
is the slate count plus one, and checkCountConstraints emits the cap message
for an entity exactly when that count strictly exceeds the default cap
(teacher 4, group 5, classroom 6).  The final conjunct is the spec's concrete
scenario: four pending monday entries of teacher 1 plus a fifth candidate
make checkConflicts return a string containing "maximum daily lectures". -/
theorem checkCountConstraints_cap_iff :
    (∀ (slate : List SlotIds) (co g c t : Nat),
       (((slate ++ [candIds co g c t]).filter
           (fun s => s.teacherId == some t)).length =
         (slate.filter (fun s => s.teacherId == some t)).length + 1) ∧
       ("Teacher exceeds maximum daily lectures of 4" ∈
           checkCountConstraints (slate ++ [candIds co g c t])
             { teacherId := some t, studentGroupId := some g, classroomId := some c } ↔
         4 < ((slate ++ [candIds co g c t]).filter
                (fun s => s.teacherId == some t)).length) ∧
       ("Student group exceeds maximum daily lectures of 5" ∈
           checkCountConstraints (slate ++ [candIds co g c t])
             { teacherId := some t, studentGroupId := some g, classroomId := some c } ↔
         5 < ((slate ++ [candIds co g c t]).filter
                (fun s => s.studentGroupId == some g)).length) ∧
       ("Classroom exceeds maximum daily lectures of 6" ∈
           checkCountConstraints (slate ++ [candIds co g c t])
             { teacherId := some t, studentGroupId := some g, classroomId := some c } ↔
         6 < ((slate ++ [candIds co g c t]).filter
                (fun s => s.classroomId == some c)).length)) ∧
    ("Teacher exceeds " ++ "maximum daily lectures" ++ " of 4" ∈
       checkConflicts 105 205 305 1 "monday" "12:00" "13:00" [] c4pending {}) := by
  have hm1 : "Teacher exceeds maximum daily lectures of " ++
      Nat.repr maxTeacherDailyLectures = "Teacher exceeds maximum daily lectures of 4" := by
    decide
  have hm2 : "Student group exceeds maximum daily lectures of " ++
      Nat.repr maxGroupDailyLectures = "Student group exceeds maximum daily lectures of 5" := by
    decide
  have hm3 : "Classroom exceeds maximum daily lectures of " ++
      Nat.repr maxClassroomDailyLectures = "Classroom exceeds maximum daily lectures of 6" := by
    decide
  have hd12 : "Teacher exceeds maximum daily lectures of 4" ≠
      "Student group exceeds maximum daily lectures of 5" := by decide
  have hd13 : "Teacher exceeds maximum daily lectures of 4" ≠
      "Classroom exceeds maximum daily lectures of 6" := by decide
  have hd21 : "Student group exceeds maximum daily lectures of 5" ≠
      "Teacher exceeds maximum daily lectures of 4" := by decide
  have hd23 : "Student group exceeds maximum daily lectures of 5" ≠
      "Classroom exceeds maximum daily lectures of 6" := by decide
  have hd31 : "Classroom exceeds maximum daily lectures of 6" ≠
      "Teacher exceeds maximum daily lectures of 4" := by decide
  have hd32 : "Classroom exceeds maximum daily lectures of 6" ≠
      "Student group exceeds maximum daily lectures of 5" := by decide
  refine ⟨?_, by decide⟩
  intro slate co g c t
  refine ⟨by simp [List.filter_append, candIds], ?_, ?_, ?_⟩ <;>
    · simp only [checkCountConstraints, hm1, hm2, hm3]
      simp [List.mem_append, mem_ite_singleton, hd12, hd13, hd21, hd23, hd31, hd32,
        maxTeacherDailyLectures, maxGroupDailyLectures, maxClassroomDailyLectures]

theorem scheduleSound_nil (courses : List Course) (classrooms : List Classroom)
    (sem : Nat) (ay : String) : ScheduleSound courses classrooms sem ay [] := by
  intro k e hk
  simp at hk

theorem tryPlace_eq_some {course : Course} {group : StudentGroup}
    {classrooms : List Classroom} {pending : List Entry} {semester : Nat}
    {academicYear : String} {e : Entry}
    (h : tryPlace course group classrooms pending semester academicYear = some e) :
    ∃ room, room ∈ classrooms ∧ group.size ≤ room.capacity ∧
      e.courseId = course.id ∧ e.studentGroupId = group.id ∧
      e.classroomId = room.id ∧ e.teacherId = course.teacherId ∧
      e.endTime = calculateEndTime e.startTime course.duration ∧
      checkConflicts course.id group.id room.id course.teacherId
        e.day e.startTime e.endTime [] pending
        { teacher := some course.teacher, classroom := some room.entity,
          studentGroup := some group.entity } = [] := by
  unfold tryPlace at h
  obtain ⟨day, hday, h⟩ := List.exists_of_findSome?_eq_some h
  obtain ⟨startTime, hst, h⟩ := List.exists_of_findSome?_eq_some h
  simp only at h
  obtain ⟨room, hroom, h⟩ := List.exists_of_findSome?_eq_some h
  split at h
  case isTrue hcap =>
    split at h
    case isTrue hconf =>
      rw [Option.some.injEq] at h
      subst h
      exact ⟨room, hroom, hcap, rfl, rfl, rfl, rfl, rfl, hconf⟩
    case isFalse => exact absurd h (by simp)
  case isFalse => exact absurd h (by simp)

theorem scheduleSound_append {courses : List Course} {classrooms : List Classroom}
    {sem : Nat} {ay : String} {pending : List Entry} {course : Course}
    {group : StudentGroup} {e : Entry}
    (hs : ScheduleSound courses classrooms sem ay pending)
    (hc : course ∈ courses) (hg : group ∈ course.studentGroups)
    (h : tryPlace course group classrooms pending sem ay = some e) :
    ScheduleSound courses classrooms sem ay (pending ++ [e]) := by
  intro k e' hk
  rcases Nat.lt_trichotomy k pending.length with hlt | heq | hgt
  · rw [List.get?_append hlt] at hk
    have htake : (pending ++ [e]).take k = pending.take k :=
      List.take_append_of_le_length (le_of_lt hlt)
    rw [htake]
    exact hs k e' hk
  · subst heq
    rw [List.get?_concat_length] at hk
    injection hk with hk
    subst hk
    have htake : (pending ++ [e]).take pending.length = pending := by
      rw [List.take_append_of_le_length (le_refl _), List.take_length]
    rw [htake]
    obtain ⟨room, hroom, hcap, h1, h2, h3, h4, h5, hconf⟩ := tryPlace_eq_some h
    exact ⟨course, group, room, hc, hg, hroom, h1, h2, h3, h4, h5, hcap, hconf⟩
  · rw [List.get?_eq_none.mpr (by simp; omega)] at hk
    cases hk

theorem generateSchedule_sound (courses : List Course) (classrooms : List Classroom)
    (sem : Nat) (ay : String) :
    ScheduleSound courses classrooms sem ay (generateSchedule courses classrooms sem ay) := by
  unfold generateSchedule
  refine foldlInv _ _ courses [] (scheduleSound_nil courses classrooms sem ay) ?_
  intro st course hcourse hst
  refine foldlInv _ _ course.studentGroups st hst ?_
  intro st2 group hgroup hst2
  refine foldlInv _ _ (List.range course.frequency) st2 hst2 ?_
  intro st3 i _ hst3
  cases h : tryPlace course group classrooms st3 sem ay with
  | none => simpa [h] using hst3
  | some e =>
    simp only [h]
    exact scheduleSound_append hst3 hcourse hgroup h

/-- C1: round-trip of the greedy generator through the kernel.  With the
persisted repository empty, each entry of the generated schedule, checked
against the previously accepted entries as the pending list and the same
entity documents the generator used, produces the empty conflict list. -/
theorem greedy_roundtrip_no_conflicts :
    ∀ (courses : List Course) (classrooms : List Classroom) (semester : Nat)
      (academicYear : String) (k : Nat) (e : Entry),
      (generateSchedule courses classrooms semester academicYear).get? k = some e →
      ∃ course group room,
        course ∈ courses ∧ group ∈ course.studentGroups ∧ room ∈ classrooms ∧
        checkConflicts e.courseId e.studentGroupId e.classroomId e.teacherId
          e.day e.startTime e.endTime []
          ((generateSchedule courses classrooms semester academicYear).take k)
          { teacher := some course.teacher, classroom := some room.entity,
            studentGroup := some group.entity } = [] := by
  intro courses classrooms sem ay k e hk
  obtain ⟨c, g, r, hc, hg, hr, h1, h2, h3, h4, _, _, hconf⟩ :=
    generateSchedule_sound courses classrooms sem ay k e hk
  refine ⟨c, g, r, hc, hg, hr, ?_⟩
  rw [h1, h2, h3, h4]
  exact hconf

/-- C1 witness: the round-trip theorem applied to the concrete one-course,
one-classroom input, whose generated schedule starts with w1Entry. -/
theorem greedy_roundtrip_no_conflicts_witness :
    ∃ course group room,
      course ∈ [w1Course] ∧ group ∈ course.studentGroups ∧ room ∈ [w1Room] ∧
      checkConflicts w1Entry.courseId w1Entry.studentGroupId w1Entry.classroomId
        w1Entry.teacherId w1Entry.day w1Entry.startTime w1Entry.endTime []
        ((generateSchedule [w1Course] [w1Room] 1 "2024-25").take 0)
        { teacher := some course.teacher, classroom := some room.entity,
          studentGroup := some group.entity } = [] :=
  greedy_roundtrip_no_conflicts [w1Course] [w1Room] 1 "2024-25" 0 w1Entry (by decide)

theorem no_dup_of_checkConflicts_nil {cid gid rid tid : Nat} {day st et : String}
    {existing pending : List Entry} {ents : EntityRefs}
    (h : checkConflicts cid gid rid tid day st et existing pending ents = [])
    {slot : Entry}
    (hmem : slot ∈ existing ++ pending.filter (fun s => s.day == day))
    (hday : slot.day = day)
    (hov : isTimeConflict st et slot.startTime slot.endTime = true) :
    slot.courseId ≠ cid ∧ slot.studentGroupId ≠ gid ∧
    slot.classroomId ≠ rid ∧ slot.teacherId ≠ tid := by
  unfold checkConflicts at h
  simp only [List.append_eq_nil] at h
  have hf : overlapMsgs cid gid rid tid day st et slot = [] :=
    (List.flatMap_eq_nil_iff.mp h.1.2) slot hmem
  refine ⟨?_, ?_, ?_, ?_⟩ <;> intro heq <;>
    simp [overlapMsgs, hday, hov, heq] at hf

/-- C2 counterexample: Welsh-Powell graph-coloring output violates the
pairwise-distinctness claim when node durations exceed the 60-minute color
granularity.  One course of duration 120 owing two sessions to one group
yields two entries on monday at 09:00-11:00 and 10:00-12:00: the intervals
overlap, yet course, group, teacher and classroom all coincide. -/
theorem welshPowell_long_duration_overlap :
    (welshPowellColoring [c2Course] [c2Room]
        (generateTimeSlots "09:00" "17:00" 60 60)).schedule.map
        (fun e => (e.day, e.startTime, e.endTime)) =
      [("monday", "09:00", "11:00"), ("monday", "10:00", "12:00")] ∧
    (welshPowellColoring [c2Course] [c2Room]
        (generateTimeSlots "09:00" "17:00" 60 60)).schedule.map
        (fun e => (e.courseId, e.studentGroupId, e.teacherId, e.classroomId)) =
      [(1, 3, 7, some 5), (1, 3, 7, some 5)] ∧
    isTimeConflict "09:00" "11:00" "10:00" "12:00" = true := by
  refine ⟨by decide, by decide, by decide⟩

/-- C2 amended: for the greedy generator the claim holds: any two output
entries sharing a day whose intervals overlap differ in all four of teacher,
student group, classroom and course.  (The graph-coloring generators assign
distinct (day, startTime) colors to conflicting nodes but compute color
feasibility with fixed 60-minute endpoints, so entries whose duration exceeds
60 minutes can overlap in time while agreeing in every identifier, as the
counterexample shows; the genetic optimizer returns its best chromosome even
when hard violations remain.) -/
theorem greedy_overlapping_entries_distinct :
    ∀ (courses : List Course) (classrooms : List Classroom) (sem : Nat) (ay : String)
      (i j : Nat) (e1 e2 : Entry),
      i < j →
      (generateSchedule courses classrooms sem ay).get? i = some e1 →
      (generateSchedule courses classrooms sem ay).get? j = some e2 →
      e1.day = e2.day →
      isTimeConflict e2.startTime e2.endTime e1.startTime e1.endTime = true →
      e1.teacherId ≠ e2.teacherId ∧ e1.studentGroupId ≠ e2.studentGroupId ∧
      e1.classroomId ≠ e2.classroomId ∧ e1.courseId ≠ e2.courseId := by
  intro courses classrooms sem ay i j e1 e2 hij h1 h2 hday hov
  obtain ⟨c, g, r, _, _, _, hc1, hc2, hc3, hc4, _, _, hconf⟩ :=
    generateSchedule_sound courses classrooms sem ay j e2 h2
  have hmem : e1 ∈ ([] : List Entry) ++
      ((generateSchedule courses classrooms sem ay).take j).filter
        (fun s => s.day == e2.day) := by
    simp only [List.nil_append]
    refine List.mem_filter.mpr ⟨?_, by simp [hday]⟩
    exact List.get?_mem (by rw [List.get?_take hij]; exact h1)
  have hres := no_dup_of_checkConflicts_nil hconf hmem hday hov
  rw [← hc1, ← hc2, ← hc3, ← hc4] at hres
  exact ⟨hres.2.2.2, hres.2.1, hres.2.2.1, hres.1⟩

/-- C2 witness: the amended theorem applied to a two-course input whose
greedy schedule places both courses on monday 09:00-10:00 in different
classrooms; the overlapping pair indeed differs in all four identifiers. -/
theorem greedy_overlapping_entries_distinct_witness :
    w2e1.teacherId ≠ w2e2.teacherId ∧ w2e1.studentGroupId ≠ w2e2.studentGroupId ∧
    w2e1.classroomId ≠ w2e2.classroomId ∧ w2e1.courseId ≠ w2e2.courseId :=
  greedy_overlapping_entries_distinct w2Courses w2Rooms 1 "2024-25" 0 1 w2e1 w2e2
    (by decide) (by decide) (by decide) (by decide) (by decide)

/-- C3 counterexample: the genetic optimizer does not skip undersized
classrooms when none qualify.  With a single classroom of capacity 10 and a
group of 50 students, createRandomChromosome falls back to that classroom
and emits a gene whose classroom is too small. -/
theorem genetic_capacity_fallback :
    (createRandomChromosome [c3Course] [c3Room] {} (fun _ => (0, 0, 0))).map
        (fun g => (g.classroomId, g.studentGroupId)) = [(9, 3)] ∧
    c3Room.id = 9 ∧ c3Room.capacity = 10 ∧
    (c3Course.studentGroups.map StudentGroup.size) = [50] := by
  refine ⟨by decide, by decide, by decide, by decide⟩

/-- C3 amended: the greedy generator and the graph-coloring classroom pass
only ever emit entries whose classroom capacity is at least the group size
(the node's required capacity); the genetic optimizer picks among
capacity-qualified classrooms whenever at least one exists, but when none
qualifies it falls back to an arbitrary classroom instead of skipping the
session, so its output can violate the capacity invariant. -/
theorem generators_capacity :
    (∀ (courses : List Course) (classrooms : List Classroom) (sem : Nat) (ay : String)
       (k : Nat) (e : Entry),
       (generateSchedule courses classrooms sem ay).get? k = some e →
       ∃ course group room, course ∈ courses ∧ group ∈ course.studentGroups ∧
         room ∈ classrooms ∧ e.studentGroupId = group.id ∧ e.classroomId = room.id ∧
         group.size ≤ room.capacity) ∧
    (∀ (classrooms : List Classroom) (nodes : List GraphNode)
       (assigns : Nat → Option Assignment) (e : Assignment),
       e ∈ (assignClassrooms classrooms nodes assigns).schedule →
       ∃ idx node a room, nodes.get? idx = some node ∧ assigns idx = some a ∧
         room ∈ classrooms ∧ e = { a with classroomId := some room.id } ∧
         node.requiredCapacity ≤ room.capacity) ∧
    (∀ (classrooms : List Classroom) (cap r : Nat) (room : Classroom),
       (∃ c ∈ classrooms, cap ≤ c.capacity) →
       getRandomClassroom classrooms cap r = some room →
       cap ≤ room.capacity) := by
  refine ⟨?_, ?_, ?_⟩
  · intro courses classrooms sem ay k e hk
    obtain ⟨c, g, r, hc, hg, hr, _, h2, h3, _, _, hcap, _⟩ :=
      generateSchedule_sound courses classrooms sem ay k e hk
    exact ⟨c, g, r, hc, hg, hr, h2, h3, hcap⟩
  · intro classrooms nodes assigns e hmem
    unfold assignClassrooms at hmem
    simp only at hmem
    have hinv := foldlInv
      (fun st : List String × List Assignment => ∀ e ∈ st.2,
        ∃ idx node a room, nodes.get? idx = some node ∧ assigns idx = some a ∧
          room ∈ classrooms ∧ e = { a with classroomId := some room.id } ∧
          node.requiredCapacity ≤ room.capacity)
      (assignStep classrooms nodes assigns) (List.range nodes.length) ([], [])
      (by intro e he; simp at he) ?_
    · exact hinv e hmem
    · intro st idx _ hP
      intro e' he'
      unfold assignStep at he'
      cases h1 : assigns idx with
      | none => rw [h1] at he'; exact hP e' he'
      | some a =>
        rw [h1] at he'
        cases h2 : nodes.get? idx with
        | none => rw [h2] at he'; exact hP e' he'
        | some node =>
          rw [h2] at he'
          simp only at he'
          split at he'
          case h_1 room hroom =>
            simp only at he'
            rcases List.mem_append.mp he' with hold | hnew
            · exact hP e' hold
            · have hmemf := List.mem_of_find?_eq_some hroom
              obtain ⟨hmemc, hcond⟩ := List.mem_filter.mp hmemf
              simp only [Bool.and_eq_true, decide_eq_true_eq] at hcond
              have he : e' = { a with classroomId := some room.id } := by
                simpa using hnew
              exact ⟨idx, node, a, room, h2, h1, hmemc, he, hcond.1⟩
          case h_2 => exact hP e' he'
  · intro classrooms cap r room hex hget
    unfold getRandomClassroom at hget
    have hs : 0 < (classrooms.filter fun c => cap ≤ c.capacity).length := by
      obtain ⟨c, hc, hcap⟩ := hex
      exact List.length_pos_of_mem (List.mem_filter.mpr ⟨hc, by simpa⟩)
    rw [if_pos hs] at hget
    have hmem := List.get?_mem hget
    have := (List.mem_filter.mp hmem).2
    simpa using this

/-- C3 witness: the adequacy conjunct applied to a concrete classroom list
containing one qualified room. -/
theorem generators_capacity_witness : 30 ≤ w3Room.capacity :=
  generators_capacity.2.2 [w3Room] 30 0 w3Room ⟨w3Room, by decide, by decide⟩ (by decide)

/-- C9: evaluation of the PUT /timetable/:id handler at the failing input.
Updating only startTime (09:00 to 11:00) of an entry stored with endTime
10:00 and duration 60 succeeds without recomputing endTime: the stored
document keeps endTime 10:00, while end_of(11:00, 60) is 12:00, so the
invariant end_time = end_of(start_time, duration) is broken by the update
path that supplies startTime without duration. -/
theorem putTimetable_stale_endTime :
    putTimetable c9entry c9update [] {} = Except.ok c9updated ∧
    c9updated.startTime = "11:00" ∧ c9updated.duration = 60 ∧
    c9updated.endTime = "10:00" ∧
    calculateEndTime c9updated.startTime c9updated.duration = "12:00" ∧
    c9updated.endTime ≠ calculateEndTime c9updated.startTime c9updated.duration := by
  refine ⟨rfl, by decide, by decide, by decide, by decide, by decide⟩

/-- C10: student read scoping of GET /timetable.  For a student whose group
memberships are memberGroups, querying a studentGroupId outside the
memberships yields a 200 response with the empty timetable (not a
forbidden/error response), and querying a member group yields a 200 response
containing only that group's entries. -/
theorem studentTimetable_scoped :
    ∀ (memberGroups : List Nat) (q : TTQuery) (db : List Entry) (g : Nat),
      q.studentGroupId = some g →
      (g ∉ memberGroups → studentTimetable memberGroups q db = (200, [])) ∧
      (g ∈ memberGroups → (studentTimetable memberGroups q db).1 = 200 ∧
        ∀ e ∈ (studentTimetable memberGroups q db).2, e.studentGroupId = g) := by
  intro memberGroups q db g hq
  unfold studentTimetable
  simp only [hq]
  by_cases hm : memberGroups.isEmpty
  · rw [if_pos hm]
    refine ⟨fun _ => rfl, fun hg => absurd hg ?_⟩
    simp [List.isEmpty_iff.mp hm]
  · rw [if_neg hm]
    by_cases hc : memberGroups.contains g = true
    · rw [if_pos hc]
      refine ⟨fun hnot => absurd (List.elem_iff.mp hc) hnot, fun _ => ⟨rfl, ?_⟩⟩
      intro e he
      have hmem := (List.mem_filter.mp ((mem_sortBy _ e _).mp he)).2
      simp only [Bool.and_eq_true, beq_iff_eq] at hmem
      exact hmem.2
    · rw [if_neg hc]
      exact ⟨fun _ => rfl, fun hg => absurd (List.elem_iff.mpr hg) hc⟩

/-- C10 witness: the scoping theorem applied to a student in group 1
querying group 2: the response is 200 with an empty list. -/
theorem studentTimetable_scoped_witness :
    studentTimetable [1] w10query w10db = (200, []) :=
  (studentTimetable_scoped [1] w10query w10db 2 rfl).1 (by decide)

/-- C4 witness: the teacher-cap equivalence applied to the concrete
four-entry slate plus the fifth candidate of teacher 1. -/
theorem checkCountConstraints_cap_iff_witness :
    "Teacher exceeds maximum daily lectures of 4" ∈
      checkCountConstraints ((c4pending.map Entry.toIds) ++ [candIds 105 205 305 1])
        { teacherId := some 1, studentGroupId := some 205, classroomId := some 305 } :=
  ((checkCountConstraints_cap_iff.1 (c4pending.map Entry.toIds) 105 205 305 1).2.1).mpr
    (by decide)
